import Mathlib

/-
Verification of the BBM trip-segmentation and distribution-comparison
pipeline (`compare_bbm_distribution.py`, `get_stats.py`).

Modelling conventions:
* Sensor values are pandas float64 columns; a float is modelled as an
  `Option ℚ` where `none` plays the role of NaN.  The arithmetic the
  program performs on these columns (`Series.diff`, subtraction,
  division) propagates NaN, and every comparison involving NaN is
  false; `fsub`, `fdiv`, `fgt`, `flt`, `fle` mirror exactly that.
  Rounding of float arithmetic is not modelled (all claims are about
  comparisons and control flow on exactly-representable data).
* `GPSTIME` is a ℚ count of seconds; `Series.diff().dt.total_seconds()/60`
  becomes subtraction followed by division by 60.
* The scipy statistical routines (`stats.levene`, `stats.ttest_ind`,
  `stats.mannwhitneyu`) are external collaborators; they are modelled
  as an abstract `StatsOracle` so theorems can quantify over every
  possible statistic/p-value they might return.
-/

namespace BBM

/-- One cleaned sensor reading as it enters `calculate_trips`:
`GPSTIME` (never NaT, since `load_data` drops those rows), `ODOMETER`
and `VALUE FUEL SENSOR` (possibly NaN after `to_numeric(errors='coerce')`). -/
structure Reading where
  gpstime : ℚ
  odometer : Option ℚ
  fuel : Option ℚ
deriving Repr, DecidableEq

/-- NaN-propagating subtraction on float columns. -/
def fsub : Option ℚ → Option ℚ → Option ℚ
  | some a, some b => some (a - b)
  | _, _ => none

/-- NaN-propagating division on float columns.  (Division by zero is
never reached on an accepted trip; see `C9`.) -/
def fdiv : Option ℚ → Option ℚ → Option ℚ
  | some a, some b => some (a / b)
  | _, _ => none

/-- Float `>`: false whenever either side is NaN. -/
def fgt : Option ℚ → Option ℚ → Bool
  | some a, some b => decide (b < a)
  | _, _ => false

/-- Float `<`: false whenever either side is NaN. -/
def flt : Option ℚ → Option ℚ → Bool
  | some a, some b => decide (a < b)
  | _, _ => false

/-- Float `≤`: false whenever either side is NaN. -/
def fle : Option ℚ → Option ℚ → Bool
  | some a, some b => decide (a ≤ b)
  | _, _ => false

/-- Tail of `Series.diff` applied to the projection `f`: each entry is
the current value minus the previous one. -/
def diffsFrom (f : Reading → Option ℚ) : Reading → List Reading → List (Option ℚ)
  | _, [] => []
  | prev, c :: rest => fsub (f c) (f prev) :: diffsFrom f c rest

/-- Model of `Series.diff` on the column `f`: the first entry is NaN, every
later entry is current minus previous. -/
def seriesDiff (f : Reading → Option ℚ) : List Reading → List (Option ℚ)
  | [] => []
  | r :: rs => none :: diffsFrom f r rs

/-- Column `time_diff` (line 73): minutes elapsed since the previous
reading, NaN on the first row. -/
def col_time_diff (df : List Reading) : List (Option ℚ) :=
  (seriesDiff (fun r => some r.gpstime) df).map (fun d => fdiv d (some 60))

/-- Column `odo_diff` (line 74). -/
def col_odo_diff (df : List Reading) : List (Option ℚ) :=
  seriesDiff Reading.odometer df

/-- Column `fuel_diff` (line 75). -/
def col_fuel_diff (df : List Reading) : List (Option ℚ) :=
  seriesDiff Reading.fuel df

/-- Pointwise combination of three columns. -/
def zipWith3 (f : α → β → γ → δ) : List α → List β → List γ → List δ
  | a :: as, b :: bs, c :: cs => f a b c :: zipWith3 f as bs cs
  | _, _, _ => []

/-- Row-wise trip-boundary test (lines 78-80):
gap > 60 minutes, or odometer reset, or refuel (> 10 L).  Each
comparison is false on NaN. -/
def rowFlag (time_diff odo_diff fuel_diff : Option ℚ) : Bool :=
  fgt time_diff (some 60) || flt odo_diff (some 0) || fgt fuel_diff (some 10)

/-- Column `new_trip` (lines 78-80). -/
def col_new_trip (df : List Reading) : List Bool :=
  zipWith3 rowFlag (col_time_diff df) (col_odo_diff df) (col_fuel_diff df)

/-- Boundary flag of a reading `cur` given its predecessor `prev`; the
derived pairwise view of `col_new_trip` (see `col_new_trip_eq_flags`). -/
def newTripFlag (prev cur : Reading) : Bool :=
  rowFlag (fdiv (some (cur.gpstime - prev.gpstime)) (some 60))
    (fsub cur.odometer prev.odometer)
    (fsub cur.fuel prev.fuel)

/-- Running sum of boolean flags, as `Series.cumsum` computes it. -/
def cumsum (acc : ℕ) : List Bool → List ℕ
  | [] => []
  | b :: bs => (acc + (if b then 1 else 0)) :: cumsum (acc + (if b then 1 else 0)) bs

/-- Column `trip_id` (line 82): cumulative sum of `new_trip`. -/
def col_trip_id (df : List Reading) : List ℕ :=
  cumsum 0 (col_new_trip df)

/-- One emitted trip record (lines 99-105).  The three derived float
fields keep their `Option` (NaN-able) type. -/
structure Trip where
  trip_id : ℕ
  distance_km : Option ℚ
  fuel_used_L : Option ℚ
  consumption_kmL : Option ℚ
  start_time : ℚ
deriving Repr, DecidableEq

/-- Body of the `groupby` loop (lines 86-105) on one group: skip groups
of fewer than 2 readings; compute distance (last odometer − first) and
fuel used (first fuel − last); keep the trip only when
`distance > min_distance`, `fuel_used > min_fuel` and the consumption
ratio lies in [1, 20]. -/
def evalGroup (min_distance min_fuel : ℚ) (tid : ℕ) (g : List Reading) : Option Trip :=
  match g with
  | [] => none
  | r0 :: rest =>
    match rest.getLast? with
    | none => none
    | some rl =>
      let distance := fsub rl.odometer r0.odometer
      let fuel_used := fsub r0.fuel rl.fuel
      if fgt distance (some min_distance) && fgt fuel_used (some min_fuel) then
        let consumption := fdiv distance fuel_used
        if fle (some 1) consumption && fle consumption (some 20) then
          some ⟨tid, distance, fuel_used, consumption, r0.gpstime⟩
        else none
      else none

/-- Model of `df.groupby('trip_id')` (line 86): the distinct `trip_id` keys in
ascending order (the ids are a non-decreasing running sum, so `dedup`
lists each key once, in order), each paired with the rows carrying that
key, in row order. -/
def tripGroups (df : List Reading) : List (ℕ × List Reading) :=
  let ids := col_trip_id df
  ids.dedup.map (fun k => (k, ((df.zip ids).filter (fun p => p.2 == k)).map Prod.fst))

/-- Model of `calculate_trips` (lines 66-107) on the cleaned active readings. -/
def calculate_trips (df : List Reading) (min_distance min_fuel : ℚ) : List Trip :=
  (tripGroups df).filterMap (fun kg => evalGroup min_distance min_fuel kg.1 kg.2)

@[simp] lemma fsub_some_some (a b : ℚ) : fsub (some a) (some b) = some (a - b) := rfl

@[simp] lemma fsub_none_left (b : Option ℚ) : fsub none b = none := rfl

@[simp] lemma fsub_none_right (a : Option ℚ) : fsub a none = none := by
  cases a <;> rfl

@[simp] lemma fdiv_some_some (a b : ℚ) : fdiv (some a) (some b) = some (a / b) := rfl

@[simp] lemma fdiv_none_left (b : Option ℚ) : fdiv none b = none := rfl

@[simp] lemma fdiv_none_right (a : Option ℚ) : fdiv a none = none := by
  cases a <;> rfl

@[simp] lemma fgt_some_some (a b : ℚ) : fgt (some a) (some b) = decide (b < a) := rfl

@[simp] lemma fgt_none_left (b : Option ℚ) : fgt none b = false := rfl

@[simp] lemma fgt_none_right (a : Option ℚ) : fgt a none = false := by
  cases a <;> rfl

@[simp] lemma flt_some_some (a b : ℚ) : flt (some a) (some b) = decide (a < b) := rfl

@[simp] lemma flt_none_left (b : Option ℚ) : flt none b = false := rfl

@[simp] lemma flt_none_right (a : Option ℚ) : flt a none = false := by
  cases a <;> rfl

@[simp] lemma fle_some_some (a b : ℚ) : fle (some a) (some b) = decide (a ≤ b) := rfl

@[simp] lemma fle_none_left (b : Option ℚ) : fle none b = false := rfl

@[simp] lemma fle_none_right (a : Option ℚ) : fle a none = false := by
  cases a <;> rfl

/-- Complete characterisation of the group loop body: a trip is emitted
from a group exactly when the group has a head and a distinct-position
last element (at least 2 readings), both end readings have non-NaN
odometer and fuel, and the three acceptance filters pass; the emitted
record is then determined. -/
lemma evalGroup_some_iff {md mf : ℚ} {k : ℕ} {g : List Reading} {t : Trip} :
    evalGroup md mf k g = some t ↔
      ∃ r0 rest rl, g = r0 :: rest ∧ rest.getLast? = some rl ∧
        ∃ d f, fsub rl.odometer r0.odometer = some d ∧ fsub r0.fuel rl.fuel = some f ∧
          md < d ∧ mf < f ∧ 1 ≤ d / f ∧ d / f ≤ 20 ∧
          t = ⟨k, some d, some f, some (d / f), r0.gpstime⟩ := by
  constructor
  · intro h
    cases g with
    | nil => simp [evalGroup] at h
    | cons r0 rest =>
      simp only [evalGroup] at h
      cases hl : rest.getLast? with
      | none =>
        rw [hl] at h
        exact Option.noConfusion h
      | some rl =>
        simp only [hl] at h
        cases hD : fsub rl.odometer r0.odometer with
        | none =>
          rw [hD] at h
          simp at h
        | some d =>
          cases hF : fsub r0.fuel rl.fuel with
          | none =>
            rw [hD, hF] at h
            simp at h
          | some f =>
            rw [hD, hF] at h
            simp only [fgt_some_some, fdiv_some_some, fle_some_some] at h
            split at h
            · split at h
              · rename_i hg1 hg2
                simp only [Bool.and_eq_true, decide_eq_true_eq] at hg1 hg2
                cases h
                exact ⟨r0, rest, rl, rfl, hl, d, f, hD, hF, hg1.1, hg1.2, hg2.1, hg2.2, rfl⟩
              · exact absurd h (by simp)
            · exact absurd h (by simp)
  · rintro ⟨r0, rest, rl, rfl, hl, d, f, hD, hF, h1, h2, h3, h4, rfl⟩
    simp [evalGroup, hl, hD, hF, h1, h2, h3, h4]

/-- The emitted record keeps the `trip_id` key of its group. -/
lemma evalGroup_trip_id {md mf : ℚ} {k : ℕ} {g : List Reading} {t : Trip}
    (h : evalGroup md mf k g = some t) : t.trip_id = k := by
  obtain ⟨r0, rest, rl, _, _, d, f, _, _, _, _, _, _, rfl⟩ := evalGroup_some_iff.mp h
  rfl

/-- A trip is only ever emitted from a group of at least two readings. -/
lemma evalGroup_two_le_length {md mf : ℚ} {k : ℕ} {g : List Reading} {t : Trip}
    (h : evalGroup md mf k g = some t) : 2 ≤ g.length := by
  obtain ⟨r0, rest, rl, rfl, hl, -⟩ := evalGroup_some_iff.mp h
  have hne : rest ≠ [] := by
    intro he
    rw [he] at hl
    exact Option.noConfusion hl
  have := List.length_pos.mpr hne
  simp only [List.length_cons]
  omega

lemma mem_calculate_trips {df : List Reading} {md mf : ℚ} {t : Trip} :
    t ∈ calculate_trips df md mf ↔
      ∃ kg ∈ tripGroups df, evalGroup md mf kg.1 kg.2 = some t := by
  simp [calculate_trips, List.mem_filterMap]

lemma le_of_mem_cumsum {acc x : ℕ} {bs : List Bool} (h : x ∈ cumsum acc bs) : acc ≤ x := by
  induction bs generalizing acc with
  | nil => simp [cumsum] at h
  | cons b bs ih =>
    rcases List.mem_cons.mp h with rfl | hmem
    · exact Nat.le_add_right _ _
    · exact le_trans (Nat.le_add_right _ _) (ih hmem)

lemma cumsum_chain' (acc : ℕ) (bs : List Bool) : (cumsum acc bs).Chain' (· ≤ ·) := by
  induction bs generalizing acc with
  | nil => simp [cumsum]
  | cons b bs ih =>
    rw [cumsum, List.chain'_cons']
    refine ⟨fun y hy => ?_, ih _⟩
    exact le_of_mem_cumsum (List.mem_of_mem_head? hy)

/-- The `trip_id` column is non-decreasing (a running sum of flags). -/
lemma col_trip_id_sorted (df : List Reading) : (col_trip_id df).Pairwise (· ≤ ·) :=
  List.chain'_iff_pairwise.mp (cumsum_chain' 0 _)

/-- The distinct `groupby` keys are strictly increasing. -/
lemma dedup_trip_id_lt (df : List Reading) :
    ((col_trip_id df).dedup).Pairwise (· < ·) := by
  have hle : ((col_trip_id df).dedup).Pairwise (· ≤ ·) :=
    (col_trip_id_sorted df).sublist (List.dedup_sublist _)
  have hne : ((col_trip_id df).dedup).Pairwise (· ≠ ·) := List.nodup_dedup _
  exact (hle.and hne).imp fun h => lt_of_le_of_ne h.1 h.2

lemma tripGroups_map_fst (df : List Reading) :
    (tripGroups df).map Prod.fst = (col_trip_id df).dedup := by
  simp [tripGroups, Function.comp_def]

/-- The `trip_id`s of the emitted trips form a sublist of the group keys. -/
lemma map_trip_id_sublist (md mf : ℚ) (l : List (ℕ × List Reading)) :
    ((l.filterMap (fun kg => evalGroup md mf kg.1 kg.2)).map Trip.trip_id).Sublist
      (l.map Prod.fst) := by
  induction l with
  | nil => simp
  | cons kg l ih =>
    cases h : evalGroup md mf kg.1 kg.2 with
    | none =>
      simp only [List.filterMap_cons, h, List.map_cons]
      exact ih.cons _
    | some t =>
      simp only [List.filterMap_cons, h, List.map_cons, evalGroup_trip_id h]
      exact ih.cons₂ _

/-- Across the output, trip ids are strictly increasing (sound even
when rejected groups leave gaps). -/
lemma calculate_trips_ids_pairwise (df : List Reading) (md mf : ℚ) :
    ((calculate_trips df md mf).map Trip.trip_id).Pairwise (· < ·) := by
  have h := (dedup_trip_id_lt df)
  rw [← tripGroups_map_fst] at h
  exact h.sublist (map_trip_id_sublist md mf (tripGroups df))

/-- Tail of `col_new_trip` as the pairwise boundary test. -/
lemma pairFlags_eq (prev : Reading) (l : List Reading) :
    zipWith3 rowFlag
      ((diffsFrom (fun x => some x.gpstime) prev l).map (fun d => fdiv d (some 60)))
      (diffsFrom Reading.odometer prev l) (diffsFrom Reading.fuel prev l)
    = List.zipWith newTripFlag (prev :: l) l := by
  induction l generalizing prev with
  | nil => rfl
  | cons c cs ih => exact congrArg (List.cons (newTripFlag prev c)) (ih c)

/-- The `new_trip` column is false at the first reading and the
pairwise boundary flag everywhere else. -/
lemma col_new_trip_cons (r : Reading) (rs : List Reading) :
    col_new_trip (r :: rs) = false :: List.zipWith newTripFlag (r :: rs) rs :=
  congrArg (List.cons false) (pairFlags_eq r rs)

lemma col_trip_id_cons (r : Reading) (rs : List Reading) :
    col_trip_id (r :: rs) = 0 :: cumsum 0 (List.zipWith newTripFlag (r :: rs) rs) := by
  rw [col_trip_id, col_new_trip_cons]
  rfl

lemma head?_eq_zero_of_sorted {l : List ℕ} (h0 : 0 ∈ l) (hs : l.Pairwise (· ≤ ·)) :
    l.head? = some 0 := by
  cases l with
  | nil => simp at h0
  | cons a t =>
    rcases List.mem_cons.mp h0 with h | hmem
    · rw [← h]
      rfl
    · have ha : a ≤ 0 := (List.pairwise_cons.mp hs).1 0 hmem
      rw [Nat.le_zero.mp ha]
      rfl

/-- The first group `groupby` yields carries key 0 and starts with the
first reading. -/
lemma tripGroups_head (r : Reading) (rs : List Reading) :
    ∃ g, (tripGroups (r :: rs)).head? = some (0, g) ∧ g.head? = some r := by
  have hid := col_trip_id_cons r rs
  have h0mem : 0 ∈ col_trip_id (r :: rs) := by
    rw [hid]
    exact List.mem_cons_self _ _
  have hkeys : ((col_trip_id (r :: rs)).dedup).head? = some 0 :=
    head?_eq_zero_of_sorted (List.mem_dedup.mpr h0mem)
      ((col_trip_id_sorted _).sublist (List.dedup_sublist _))
  refine ⟨((((r :: rs).zip (col_trip_id (r :: rs))).filter
      (fun p => p.2 == 0)).map Prod.fst), ?_, ?_⟩
  · rw [tripGroups]
    cases hd : (col_trip_id (r :: rs)).dedup with
    | nil =>
      rw [hd] at hkeys
      exact Option.noConfusion hkeys
    | cons k ks =>
      rw [hd] at hkeys
      have hk : k = 0 := by
        injection hkeys
      subst hk
      rfl
  · rw [hid]
    simp [List.filter_cons]

/-- One raw spreadsheet row after the parsing steps of `load_data`
(lines 47-53): `GPSTIME` after `parse_datetime_safe` (`none` = NaT),
the numeric columns after `to_numeric(errors='coerce')` (`none` = NaN),
and the raw `ACC` text. -/
structure RawRow where
  gpstime : Option ℚ
  fuel : Option ℚ
  odometer : Option ℚ
  speed : Option ℚ
  acc : String
deriving Repr, DecidableEq

/-- Sort key of `sort_values('GPSTIME')`; rows with missing `GPSTIME`
are already gone when the sort runs. -/
def timeKey (r : RawRow) : ℚ := r.gpstime.getD 0

def insertByTime (r : RawRow) : List RawRow → List RawRow
  | [] => [r]
  | x :: xs => if timeKey r ≤ timeKey x then r :: x :: xs else x :: insertByTime r xs

/-- Model of `df.sort_values('GPSTIME')` (line 57) as an insertion sort on the
time key. -/
def sortByTime : List RawRow → List RawRow
  | [] => []
  | r :: rs => insertByTime r (sortByTime rs)

/-- View of a cleaned row as a `Reading` (the `GPSTIME` column is
non-null for every row that survives `dropna(subset=['GPSTIME'])`). -/
def toReading (r : RawRow) : Option Reading :=
  r.gpstime.map (fun t => ⟨t, r.odometer, r.fuel⟩)

/-- Cleaning pipeline of `load_data` (lines 55-64): drop rows with
missing `GPSTIME` only, sort by time, keep `ACC == 'ON'` rows.  Rows
whose numeric sensor fields failed to parse are NOT dropped here. -/
def load_data (rows : List RawRow) : List Reading :=
  let kept := rows.filter (fun r => r.gpstime.isSome)
  let sorted := sortByTime kept
  let active := sorted.filter (fun r => r.acc == "ON")
  active.filterMap toReading

lemma insertByTime_perm (r : RawRow) (l : List RawRow) :
    (insertByTime r l).Perm (r :: l) := by
  induction l with
  | nil => exact List.Perm.refl _
  | cons x xs ih =>
    rw [insertByTime]
    split
    · exact List.Perm.refl _
    · exact (ih.cons x).trans (List.Perm.swap r x xs)

lemma sortByTime_perm (l : List RawRow) : (sortByTime l).Perm l := by
  induction l with
  | nil => exact List.Perm.refl _
  | cons r rs ih => exact (insertByTime_perm r (sortByTime rs)).trans (ih.cons r)

lemma filterMap_toReading_length (l : List RawRow)
    (h : ∀ x ∈ l, x.gpstime.isSome) :
    (l.filterMap toReading).length = l.length := by
  induction l with
  | nil => simp
  | cons x xs ih =>
    obtain ⟨t, ht⟩ := Option.isSome_iff_exists.mp (h x (List.mem_cons_self _ _))
    have hx : toReading x = some ⟨t, x.odometer, x.fuel⟩ := by
      rw [toReading, ht]
      rfl
    simp only [List.filterMap_cons, hx, List.length_cons]
    exact congrArg (· + 1) (ih fun y hy => h y (List.mem_cons_of_mem _ hy))

/-- Every reading that survives cleaning comes from an input row with a
parseable timestamp and `ACC == 'ON'`; its (possibly missing) numeric
fields are carried over unchanged. -/
lemma load_data_mem {rows : List RawRow} {re : Reading} (h : re ∈ load_data rows) :
    ∃ raw ∈ rows, raw.gpstime = some re.gpstime ∧ raw.acc = "ON" ∧
      raw.odometer = re.odometer ∧ raw.fuel = re.fuel := by
  obtain ⟨raw, hmem, htr⟩ := List.mem_filterMap.mp h
  obtain ⟨hsort, hacc⟩ := List.mem_filter.mp hmem
  have hrows : raw ∈ rows :=
    (List.mem_filter.mp ((sortByTime_perm _).mem_iff.mp hsort)).1
  cases hg : raw.gpstime with
  | none =>
    rw [toReading, hg] at htr
    exact Option.noConfusion htr
  | some t =>
    rw [toReading, hg] at htr
    injection htr with htr
    refine ⟨raw, hrows, ?_, beq_iff_eq.mp hacc, ?_, ?_⟩
    · rw [hg, ← htr]
    · rw [← htr]
    · rw [← htr]

/-- Cleaning drops exactly the rows with unparseable `GPSTIME` or with
`ACC ≠ 'ON'`; in particular a missing numeric field never causes a row
to be dropped. -/
lemma load_data_length (rows : List RawRow) :
    (load_data rows).length =
      (rows.filter (fun r => r.acc == "ON" && r.gpstime.isSome)).length := by
  rw [load_data]
  have hsome : ∀ x ∈ (sortByTime (rows.filter (fun r => r.gpstime.isSome))).filter
      (fun r => r.acc == "ON"), x.gpstime.isSome := by
    intro x hx
    exact (List.mem_filter.mp
      ((sortByTime_perm _).mem_iff.mp (List.mem_filter.mp hx).1)).2
  rw [filterMap_toReading_length _ hsome]
  rw [((sortByTime_perm _).filter (fun r => r.acc == "ON")).length_eq]
  rw [List.filter_filter]

/-- Error taxonomy of the comparison step (section 7 of the design):
only `InsufficientData` is decidable from the inputs alone. -/
inductive CompareError where
  | InsufficientData
deriving Repr, DecidableEq

/-- Abstraction of the scipy statistical routines: each returns a
(statistic, p-value) pair; `ttest_ind` also receives the `equal_var`
flag.  Theorems quantify over every oracle, so nothing is assumed
about the numerics. -/
structure StatsOracle where
  levene : List (Option ℚ) → List (Option ℚ) → ℚ × ℚ
  ttest_ind : List (Option ℚ) → List (Option ℚ) → Bool → ℚ × ℚ
  mannwhitneyu : List (Option ℚ) → List (Option ℚ) → ℚ × ℚ

/-- Model of `Series.mean()` of a float column: NaN entries are skipped. -/
def colMean (l : List (Option ℚ)) : ℚ :=
  l.reduceOption.sum / l.reduceOption.length

/-- Sample variance (ddof = 1) of a float column, NaN entries skipped.
The report prints its square root (the standard deviation); only the
variance is kept here since the printout is presentation-only. -/
def colVar (l : List (Option ℚ)) : ℚ :=
  (l.reduceOption.map (fun x => (x - colMean l) ^ 2)).sum /
    ((l.reduceOption.length : ℚ) - 1)

/-- Everything `main` derives from the two trip lists (lines 144-193):
descriptive statistics, Levene outcome and the `equal_var` decision,
the t-test pair computed with that decision, the Mann-Whitney pair and
the verdict flag driving the printed conclusion. -/
structure ComparisonResult where
  mean1 : ℚ
  mean2 : ℚ
  var1 : ℚ
  var2 : ℚ
  n1 : ℕ
  n2 : ℕ
  lev_stat : ℚ
  lev_p : ℚ
  equal_var : Bool
  t_stat : ℚ
  t_p : ℚ
  u_stat : ℚ
  u_p : ℚ
  significant : Bool
deriving Repr, DecidableEq

/-- The comparison step of `main` (lines 135-193): bail out with
`InsufficientData` when either trip list has fewer than 2 rows (line
135), otherwise take the `consumption_kmL` columns, run Levene, decide
`equal_var := lev_p > 0.05`, run the t-test with that flag, run the
two-sided Mann-Whitney test, and set the verdict to `u_p < 0.05`
(α = 0.05 = 1/20). -/
def compareMain (S : StatsOracle) (trips_baru trips_lama : List Trip) :
    Except CompareError ComparisonResult :=
  if trips_baru.length < 2 ∨ trips_lama.length < 2 then
    Except.error CompareError.InsufficientData
  else
    let group1 := trips_baru.map Trip.consumption_kmL
    let group2 := trips_lama.map Trip.consumption_kmL
    let lev := S.levene group1 group2
    let equal_var := decide (lev.2 > 1/20)
    let t := S.ttest_ind group1 group2 equal_var
    let u := S.mannwhitneyu group1 group2
    Except.ok ⟨colMean group1, colMean group2, colVar group1, colVar group2,
      trips_baru.length, trips_lama.length, lev.1, lev.2, equal_var,
      t.1, t.2, u.1, u.2, decide (u.2 < 1/20)⟩

/-- The working copy produced by `df.copy()` at line 70, holding the
original rows together with the derived columns written at lines
73-82.  Because of the copy, these column writes never touch the
caller's frame. -/
structure WorkingFrame where
  rows : List Reading
  time_diff : List (Option ℚ)
  odo_diff : List (Option ℚ)
  fuel_diff : List (Option ℚ)
  new_trip : List Bool
  trip_id : List ℕ
deriving Repr, DecidableEq

/-- Model of `df = df.copy()` followed by the column assignments of lines 73-82,
performed on the copy. -/
def buildWorking (df : List Reading) : WorkingFrame :=
  ⟨df, col_time_diff df, col_odo_diff df, col_fuel_diff df,
    col_new_trip df, col_trip_id df⟩

/-- State-passing form of `calculate_trips`: the first component is the
caller's dataframe after the call returns (untouched, because every
mutation targets the `buildWorking` copy), the second the emitted trip
list built from the copy. -/
def calculate_trips_st (df : List Reading) (min_distance min_fuel : ℚ) :
    List Reading × List Trip :=
  let w := buildWorking df
  (df,
    (w.trip_id.dedup.map
      (fun k => (k, ((w.rows.zip w.trip_id).filter (fun p => p.2 == k)).map Prod.fst))).filterMap
      (fun kg => evalGroup min_distance min_fuel kg.1 kg.2))

/-- Shape of every successful run of the comparison step. -/
lemma compareMain_ok {S : StatsOracle} {tb tl : List Trip} {r : ComparisonResult}
    (h : compareMain S tb tl = Except.ok r) :
    ¬(tb.length < 2 ∨ tl.length < 2) ∧
      r = ⟨colMean (tb.map Trip.consumption_kmL), colMean (tl.map Trip.consumption_kmL),
        colVar (tb.map Trip.consumption_kmL), colVar (tl.map Trip.consumption_kmL),
        tb.length, tl.length,
        (S.levene (tb.map Trip.consumption_kmL) (tl.map Trip.consumption_kmL)).1,
        (S.levene (tb.map Trip.consumption_kmL) (tl.map Trip.consumption_kmL)).2,
        decide ((S.levene (tb.map Trip.consumption_kmL) (tl.map Trip.consumption_kmL)).2 > 1/20),
        (S.ttest_ind (tb.map Trip.consumption_kmL) (tl.map Trip.consumption_kmL)
          (decide ((S.levene (tb.map Trip.consumption_kmL)
            (tl.map Trip.consumption_kmL)).2 > 1/20))).1,
        (S.ttest_ind (tb.map Trip.consumption_kmL) (tl.map Trip.consumption_kmL)
          (decide ((S.levene (tb.map Trip.consumption_kmL)
            (tl.map Trip.consumption_kmL)).2 > 1/20))).2,
        (S.mannwhitneyu (tb.map Trip.consumption_kmL) (tl.map Trip.consumption_kmL)).1,
        (S.mannwhitneyu (tb.map Trip.consumption_kmL) (tl.map Trip.consumption_kmL)).2,
        decide ((S.mannwhitneyu (tb.map Trip.consumption_kmL)
          (tl.map Trip.consumption_kmL)).2 < 1/20)⟩ := by
  rw [compareMain] at h
  split at h
  · exact absurd h (by simp)
  · rename_i hc
    injection h with h
    exact ⟨hc, h.symm⟩

/-- The end-to-end scenario of the design document: two active
readings 30 minutes apart, odometer 100 → 150, fuel 50 → 45. -/
def exTrip : List Reading := [⟨0, some 100, some 50⟩, ⟨1800, some 150, some 45⟩]

/-- The single trip the scenario yields. -/
def exTripOut : Trip := ⟨0, some 50, some 5, some 10, 0⟩

/-- Input with three groups: group 0 accepted, group 1 a single
reading (rejected), group 2 accepted — so emitted ids are [0, 2]. -/
def exGap : List Reading :=
  [⟨0, some 0, some 50⟩, ⟨1800, some 10, some 45⟩,
   ⟨6000, some 20, some 44⟩,
   ⟨12000, some 30, some 40⟩, ⟨13800, some 40, some 35⟩]

/-- A row whose fuel value failed numeric parsing but whose timestamp
parsed and whose engine flag is ON. -/
def exBadRow : RawRow := ⟨some 0, none, some 3, some 0, "ON"⟩

/-- The reading `exBadRow` turns into after cleaning. -/
def exBadReading : Reading := ⟨0, some 3, none⟩

/-- Trip list of length 2 for exercising the comparator. -/
def exCmpTrips : List Trip :=
  [⟨0, some 10, some 1, some 10, 0⟩, ⟨1, some 12, some 1, some 12, 3600⟩]

/-- Oracle whose Mann-Whitney p-value is 1/100 (significant). -/
def oracleA : StatsOracle :=
  ⟨fun _ _ => (0, 1), fun _ _ _ => (5, 5), fun _ _ => (3, 1/100)⟩

/-- Same Mann-Whitney output as `oracleA` but a different t-test. -/
def oracleB : StatsOracle :=
  ⟨fun _ _ => (0, 1), fun _ _ _ => (7, 7), fun _ _ => (3, 1/100)⟩

/-- Oracle whose Levene p-value is exactly 0.05. -/
def oracleEq : StatsOracle :=
  ⟨fun _ _ => (0, 1/20), fun _ _ _ => (2, 3), fun _ _ => (0, 1)⟩

set_option maxRecDepth 100000

/-- C1: for every input reading sequence and parameters, every trip
emitted by `calculate_trips` was built from a group of at least 2
readings and satisfies distance > min_distance, fuel_used > min_fuel
and 1 ≤ distance/fuel_used ≤ 20; a group violating any of these
conditions produces no output trip (second conjunct, read
contrapositively: a trip is only produced when all conditions hold). -/
theorem C1_trip_filter_invariant (df : List Reading) (md mf : ℚ) :
    (∀ t ∈ calculate_trips df md mf,
      ∃ k g, (k, g) ∈ tripGroups df ∧ 2 ≤ g.length ∧
        evalGroup md mf k g = some t ∧
        ∃ d f, t.distance_km = some d ∧ t.fuel_used_L = some f ∧
          t.consumption_kmL = some (d / f) ∧
          md < d ∧ mf < f ∧ 1 ≤ d / f ∧ d / f ≤ 20) ∧
    (∀ k g t, evalGroup md mf k g = some t →
      2 ≤ g.length ∧ ∃ r0 rl d f, g.head? = some r0 ∧ g.getLast? = some rl ∧
        fsub rl.odometer r0.odometer = some d ∧ fsub r0.fuel rl.fuel = some f ∧
        md < d ∧ mf < f ∧ 1 ≤ d / f ∧ d / f ≤ 20) := by
  constructor
  · intro t ht
    obtain ⟨kg, hkg, he⟩ := mem_calculate_trips.mp ht
    obtain ⟨r0, rest, rl, hg, hl, d, f, hD, hF, h1, h2, h3, h4, rfl⟩ :=
      evalGroup_some_iff.mp he
    exact ⟨kg.1, kg.2, hkg, evalGroup_two_le_length he, he,
      d, f, rfl, rfl, rfl, h1, h2, h3, h4⟩
  · intro k g t he
    obtain ⟨r0, rest, rl, hg, hl, d, f, hD, hF, h1, h2, h3, h4, rfl⟩ :=
      evalGroup_some_iff.mp he
    refine ⟨evalGroup_two_le_length he, r0, rl, d, f, ?_, ?_, hD, hF, h1, h2, h3, h4⟩
    · rw [hg]
      rfl
    · rw [hg]
      cases rest with
      | nil => exact Option.noConfusion hl
      | cons b bs =>
        rw [List.getLast?_cons_cons]
        exact hl

/-- Witness for C1 at the design document's end-to-end scenario. -/
theorem C1_trip_filter_invariant_witness :
    exTripOut ∈ calculate_trips exTrip (1/2) (1/5) ∧
    ∃ k g, (k, g) ∈ tripGroups exTrip ∧ 2 ≤ g.length ∧
      evalGroup (1/2) (1/5) k g = some exTripOut ∧
      ∃ d f, exTripOut.distance_km = some d ∧ exTripOut.fuel_used_L = some f ∧
        exTripOut.consumption_kmL = some (d / f) ∧
        (1:ℚ)/2 < d ∧ (1:ℚ)/5 < f ∧ 1 ≤ d / f ∧ d / f ≤ 20 :=
  have hmem : exTripOut ∈ calculate_trips exTrip (1/2) (1/5) :=
    of_decide_eq_true (by with_unfolding_all exact rfl)
  ⟨hmem, (C1_trip_filter_invariant exTrip (1/2) (1/5)).1 exTripOut hmem⟩

/-- C2: a reading is marked as a new-trip boundary iff elapsed time
since the previous reading exceeds 60 minutes, or the odometer delta
is negative, or the fuel delta exceeds +10; the flag column is false
at the first reading and the pairwise test elsewhere; a fuel delta of
exactly 10 never triggers on its own while 10.01 does, and an odometer
delta of −5 always triggers regardless of elapsed time. -/
theorem C2_boundary_characterisation :
    (∀ (r : Reading) (rs : List Reading),
        col_new_trip (r :: rs) = false :: List.zipWith newTripFlag (r :: rs) rs) ∧
    (∀ (prev cur : Reading) (o1 o2 f1 f2 : ℚ),
        prev.odometer = some o1 → cur.odometer = some o2 →
        prev.fuel = some f1 → cur.fuel = some f2 →
        (newTripFlag prev cur = true ↔
          (60 < (cur.gpstime - prev.gpstime) / 60 ∨ o2 - o1 < 0 ∨ 10 < f2 - f1))) ∧
    (∀ t1 t2 o1 o2 f1 : ℚ, (t2 - t1) / 60 ≤ 60 → o1 ≤ o2 →
        newTripFlag ⟨t1, some o1, some f1⟩ ⟨t2, some o2, some (f1 + 10)⟩ = false) ∧
    (∀ t1 t2 o1 o2 f1 : ℚ, (t2 - t1) / 60 ≤ 60 → o1 ≤ o2 →
        newTripFlag ⟨t1, some o1, some f1⟩ ⟨t2, some o2, some (f1 + 1001/100)⟩ = true) ∧
    (∀ t1 t2 o f1 f2 : ℚ,
        newTripFlag ⟨t1, some o, some f1⟩ ⟨t2, some (o - 5), some f2⟩ = true) := by
  refine ⟨col_new_trip_cons, ?_, ?_, ?_, ?_⟩
  · intro prev cur o1 o2 f1 f2 ho1 ho2 hf1 hf2
    simp only [newTripFlag, rowFlag, fsub_some_some, fdiv_some_some, fgt_some_some,
      flt_some_some, Bool.or_eq_true, decide_eq_true_eq, ho1, ho2, hf1, hf2,
      sub_neg]
    tauto
  · intro t1 t2 o1 o2 f1 h1 h2
    simp [newTripFlag, rowFlag, not_lt, sub_nonneg, add_sub_cancel_left, h1, h2]
  · intro t1 t2 o1 o2 f1 h1 h2
    simp only [newTripFlag, rowFlag, fsub_some_some, fdiv_some_some, fgt_some_some,
      flt_some_some, Bool.or_eq_true, decide_eq_true_eq]
    right
    rw [add_sub_cancel_left]
    norm_num
  · intro t1 t2 o f1 f2
    simp only [newTripFlag, rowFlag, fsub_some_some, fdiv_some_some, fgt_some_some,
      flt_some_some, Bool.or_eq_true, decide_eq_true_eq]
    left
    right
    have h : o - 5 - o = -5 := by ring
    rw [h]
    norm_num

/-- Witness for C2 at concrete readings. -/
theorem C2_boundary_characterisation_witness :
    newTripFlag ⟨0, some 0, some 7⟩ ⟨0, some 0, some (7 + 10)⟩ = false ∧
    newTripFlag ⟨0, some 0, some 7⟩ ⟨0, some 0, some (7 + 1001/100)⟩ = true ∧
    newTripFlag ⟨0, some 100, some 7⟩ ⟨3600, some (100 - 5), some 7⟩ = true :=
  ⟨C2_boundary_characterisation.2.2.1 0 0 0 0 7
      (of_decide_eq_true (by with_unfolding_all exact rfl)) (le_refl 0),
    C2_boundary_characterisation.2.2.2.1 0 0 0 0 7
      (of_decide_eq_true (by with_unfolding_all exact rfl)) (le_refl 0),
    C2_boundary_characterisation.2.2.2.2 0 3600 100 7 7⟩

/-- C3 is refuted: on `exGap` the emitted trips carry ids [0, 2] —
strictly increasing but not contiguous, because the rejected
single-reading group 1 leaves a gap. -/
theorem C3_counterexample :
    (calculate_trips exGap (1/2) (1/5)).map Trip.trip_id = [0, 2] ∧
    ¬ List.Chain' (fun a b => b = a + 1)
      ((calculate_trips exGap (1/2) (1/5)).map Trip.trip_id) := by
  have h : (calculate_trips exGap (1/2) (1/5)).map Trip.trip_id = [0, 2] :=
    of_decide_eq_true (by with_unfolding_all exact rfl)
  refine ⟨h, ?_⟩
  rw [h]
  simp [List.chain'_cons]

/-- C3 (amended): across the output of the segmenter, trip ids are
strictly increasing in output order; they need not be contiguous nor
start at 0 or 1, since filtered-out groups leave gaps. -/
theorem C3_trip_ids_strictly_increasing (df : List Reading) (md mf : ℚ) :
    ((calculate_trips df md mf).map Trip.trip_id).Pairwise (· < ·) :=
  calculate_trips_ids_pairwise df md mf

/-- C4 is refuted: a row whose fuel field failed numeric parsing (and
was coerced to missing) is NOT dropped by the cleaning stage; it
survives into the segmenter input with its missing fuel value. -/
theorem C4_counterexample :
    load_data [exBadRow] = [exBadReading] ∧
    ∃ re ∈ load_data [exBadRow], re.fuel = none := by
  have h : load_data [exBadRow] = [exBadReading] := by
    with_unfolding_all exact rfl
  exact ⟨h, exBadReading, by rw [h]; exact List.mem_cons_self _ _, rfl⟩

/-- C4 (amended): the cleaning stage drops exactly the rows with an
unparseable timestamp (and, downstream, rows with ACC ≠ 'ON'); rows
whose numeric sensor fields fail to parse are coerced to missing but
kept, entering the segmenter with missing values intact. -/
theorem C4_cleaning_behaviour (rows : List RawRow) :
    (load_data rows).length =
      (rows.filter (fun r => r.acc == "ON" && r.gpstime.isSome)).length ∧
    ∀ re ∈ load_data rows, ∃ raw ∈ rows, raw.gpstime = some re.gpstime ∧
      raw.acc = "ON" ∧ raw.odometer = re.odometer ∧ raw.fuel = re.fuel :=
  ⟨load_data_length rows, fun _ hre => load_data_mem hre⟩

/-- Witness for C4 (amended) at the bad-fuel row. -/
theorem C4_cleaning_behaviour_witness :
    ∃ raw ∈ [exBadRow], raw.gpstime = some exBadReading.gpstime ∧
      raw.acc = "ON" ∧ raw.odometer = exBadReading.odometer ∧
      raw.fuel = exBadReading.fuel :=
  (C4_cleaning_behaviour [exBadRow]).2 exBadReading
    (of_decide_eq_true (by with_unfolding_all exact rfl))

/-- C5: the verdict is decided by the Mann-Whitney test alone — any
two oracles agreeing on `mannwhitneyu` (whatever their t-test and
Levene outputs) produce the same verdict, and the verdict is
"significant difference" iff the Mann-Whitney two-sided p-value is
below α = 0.05. -/
theorem C5_verdict_mannwhitney_only :
    (∀ (S T : StatsOracle) (tb tl : List Trip),
        S.mannwhitneyu = T.mannwhitneyu →
        ∀ r r', compareMain S tb tl = Except.ok r →
          compareMain T tb tl = Except.ok r' → r.significant = r'.significant) ∧
    (∀ (S : StatsOracle) (tb tl : List Trip) (r : ComparisonResult),
        compareMain S tb tl = Except.ok r →
        (r.significant = true ↔
          (S.mannwhitneyu (tb.map Trip.consumption_kmL)
            (tl.map Trip.consumption_kmL)).2 < 1/20)) := by
  constructor
  · intro S T tb tl hMW r r' hr hr'
    obtain ⟨-, rfl⟩ := compareMain_ok hr
    obtain ⟨-, rfl⟩ := compareMain_ok hr'
    simp only [hMW]
  · intro S tb tl r hr
    obtain ⟨-, rfl⟩ := compareMain_ok hr
    simp

/-- Witness for C5: two oracles differing only in the t-test yield the
same (significant) verdict. -/
theorem C5_verdict_mannwhitney_only_witness :
    ∃ r r', compareMain oracleA exCmpTrips exCmpTrips = Except.ok r ∧
      compareMain oracleB exCmpTrips exCmpTrips = Except.ok r' ∧
      r.significant = r'.significant ∧
      (r.significant = true ↔
        (oracleA.mannwhitneyu (exCmpTrips.map Trip.consumption_kmL)
          (exCmpTrips.map Trip.consumption_kmL)).2 < 1/20) :=
  have hA : compareMain oracleA exCmpTrips exCmpTrips =
      Except.ok ⟨11, 11, 2, 2, 2, 2, 0, 1, true, 5, 5, 3, 1/100, true⟩ := by
    with_unfolding_all exact rfl
  have hB : compareMain oracleB exCmpTrips exCmpTrips =
      Except.ok ⟨11, 11, 2, 2, 2, 2, 0, 1, true, 7, 7, 3, 1/100, true⟩ := by
    with_unfolding_all exact rfl
  ⟨_, _, hA, hB,
    C5_verdict_mannwhitney_only.1 oracleA oracleB exCmpTrips exCmpTrips rfl _ _ hA hB,
    C5_verdict_mannwhitney_only.2 oracleA exCmpTrips exCmpTrips _ hA⟩

/-- C6: whenever either trip list has fewer than 2 rows, the
comparison step fails with `InsufficientData` — for every oracle, so
no statistic is computed on the way to the failure. -/
theorem C6_insufficient_data (S : StatsOracle) (tb tl : List Trip)
    (h : tb.length < 2 ∨ tl.length < 2) :
    compareMain S tb tl = Except.error CompareError.InsufficientData := by
  rw [compareMain, if_pos h]

/-- Witness for C6 at two empty samples. -/
theorem C6_insufficient_data_witness :
    compareMain oracleA [] [] = Except.error CompareError.InsufficientData :=
  C6_insufficient_data oracleA [] [] (Or.inl (by decide))

/-- C7: the parametric test variant is selected by the Levene outcome:
pooled variance (`equal_var = true`) iff the Levene p-value is
strictly greater than 0.05; the recorded t-test pair was computed with
exactly that flag; a p-value of exactly 0.05 selects Welch. -/
theorem C7_variance_test_selects_ttest (S : StatsOracle) (tb tl : List Trip)
    (r : ComparisonResult) (h : compareMain S tb tl = Except.ok r) :
    (r.equal_var = true ↔
      1/20 < (S.levene (tb.map Trip.consumption_kmL)
        (tl.map Trip.consumption_kmL)).2) ∧
    (r.t_stat, r.t_p) =
      S.ttest_ind (tb.map Trip.consumption_kmL) (tl.map Trip.consumption_kmL)
        r.equal_var ∧
    ((S.levene (tb.map Trip.consumption_kmL) (tl.map Trip.consumption_kmL)).2
        = 1/20 → r.equal_var = false) := by
  obtain ⟨-, rfl⟩ := compareMain_ok h
  refine ⟨by simp [gt_iff_lt], rfl, ?_⟩
  intro hp
  simp [hp]

/-- Witness for C7 at a Levene p-value of exactly 0.05. -/
theorem C7_variance_test_selects_ttest_witness :
    ∃ r, compareMain oracleEq exCmpTrips exCmpTrips = Except.ok r ∧
      r.equal_var = false ∧
      (r.t_stat, r.t_p) =
        oracleEq.ttest_ind (exCmpTrips.map Trip.consumption_kmL)
          (exCmpTrips.map Trip.consumption_kmL) false :=
  have hEq : compareMain oracleEq exCmpTrips exCmpTrips =
      Except.ok ⟨11, 11, 2, 2, 2, 2, 0, 1/20, false, 2, 3, 0, 1, false⟩ := by
    with_unfolding_all exact rfl
  have h7 := C7_variance_test_selects_ttest oracleEq exCmpTrips exCmpTrips _ hEq
  ⟨_, hEq, h7.2.2 rfl, h7.2.1⟩

/-- C8: the segmenter does not mutate its input — in the state-passing
model reflecting `df.copy()` at line 70, the caller's dataframe
component returned by `calculate_trips_st` is the input itself, and the
trip list is the same newly built structure `calculate_trips` yields. -/
theorem C8_input_frame_preserved (df : List Reading) (md mf : ℚ) :
    calculate_trips_st df md mf = (df, calculate_trips df md mf) := rfl

/-- C9: with any min_fuel ≥ 0, every emitted trip has non-missing
distance, fuel and consumption fields, its fuel_used is strictly
positive (so the consumption division never divides by zero), and its
consumption is exactly distance / fuel_used. -/
theorem C9_division_guarded (df : List Reading) (md mf : ℚ) (t : Trip)
    (hmf : 0 ≤ mf) (ht : t ∈ calculate_trips df md mf) :
    ∃ d f, t.distance_km = some d ∧ t.fuel_used_L = some f ∧ 0 < f ∧
      t.consumption_kmL = some (d / f) := by
  obtain ⟨kg, hkg, he⟩ := mem_calculate_trips.mp ht
  obtain ⟨r0, rest, rl, hg, hl, d, f, hD, hF, h1, h2, h3, h4, rfl⟩ :=
    evalGroup_some_iff.mp he
  exact ⟨d, f, rfl, rfl, lt_of_le_of_lt hmf h2, rfl⟩

/-- Witness for C9 at the end-to-end scenario with the default
min_fuel = 0.2. -/
theorem C9_division_guarded_witness :
    (0:ℚ) ≤ 1/5 ∧
    ∃ d f, exTripOut.distance_km = some d ∧ exTripOut.fuel_used_L = some f ∧
      0 < f ∧ exTripOut.consumption_kmL = some (d / f) :=
  have hmf : (0:ℚ) ≤ 1/5 := of_decide_eq_true (by with_unfolding_all exact rfl)
  ⟨hmf, C9_division_guarded exTrip (1/2) (1/5) exTripOut hmf
    (of_decide_eq_true (by with_unfolding_all exact rfl))⟩

/-- C10: on any non-empty input the first reading never marks a
boundary (its diffs are all NaN, and every comparison on NaN is
false), the `trip_id` column starts at 0, and the first `groupby`
group carries key 0 with the first reading at its head. -/
theorem C10_first_reading_trip_zero (r : Reading) (rs : List Reading) :
    rowFlag none none none = false ∧
    (col_new_trip (r :: rs)).head? = some false ∧
    (col_trip_id (r :: rs)).head? = some 0 ∧
    ∃ g, (tripGroups (r :: rs)).head? = some (0, g) ∧ g.head? = some r := by
  refine ⟨rfl, ?_, ?_, tripGroups_head r rs⟩
  · rw [col_new_trip_cons]
    rfl
  · rw [col_trip_id_cons]
    rfl

end BBM
